import Mathlib

/-!
Verification of the PandaBot codex inspection scripts.

The repository is four Python scripts that inspect and query a remote
PostgreSQL store holding one table, public.codex, whose rows are
(guid, section, data) with data a JSON document:

  - discover_schema.py : lists user tables and their columns from
    information_schema, ordered by name and ordinal position.
  - find_crafting.py   : connects on port 5432, falling back to port 6543
    on psycopg2.OperationalError, and searches for rows whose
    data->gameplayTags JSON array contains a literal tag.
  - sample_data.py     : counts rows, fetches a LIMIT 5 sample, and counts
    rows per DISTINCT section with one COUNT query per section.
  - sample_data_api.py : the same sampling over the REST gateway, tallying
    sections client side.

This file embeds the decision logic of these scripts - the connection
fallback, the SQL query semantics, the JSON containment predicate, the
per-section aggregation, and the close/release behaviour of each script
path - as executable Lean definitions, and proves or refutes the frozen
specification claims about them.
-/

namespace Codex

/-- The in-memory JSON tree model: a data column value is a null, boolean,
number, string, array or object node.  Numbers are modelled as integers,
which covers every payload the claims mention. -/
inductive Json where
| null : Json
| bool (b : Bool) : Json
| num (n : Int) : Json
| str (s : String) : Json
| arr (xs : List Json) : Json
| obj (fields : List (String × Json)) : Json

mutual

/-- Structural equality of two JSON values. -/
def jsonBeq : Json → Json → Bool
| Json.null, Json.null => true
| Json.bool a, Json.bool b => a == b
| Json.num a, Json.num b => a == b
| Json.str a, Json.str b => a == b
| Json.arr xs, Json.arr ys => jsonListBeq xs ys
| Json.obj xs, Json.obj ys => jsonFieldsBeq xs ys
| _, _ => false

/-- Elementwise structural equality of two JSON arrays. -/
def jsonListBeq : List Json → List Json → Bool
| [], [] => true
| x :: xs, y :: ys => jsonBeq x y && jsonListBeq xs ys
| _, _ => false

/-- Fieldwise structural equality of two JSON object field lists. -/
def jsonFieldsBeq : List (String × Json) → List (String × Json) → Bool
| [], [] => true
| x :: xs, y :: ys => (x.1 == y.1) && jsonBeq x.2 y.2 && jsonFieldsBeq xs ys
| _, _ => false

end

mutual

/-- Nested jsonb containment, following the documented PostgreSQL semantics
of the @> operator below the top level: an array contains an array when
every element of the contained one is contained in some element of the
containing one, an object contains an object when every contained key maps
to a contained value, and otherwise the two values must be equal.  The
special top-level exception (array contains primitive) does not apply at
nested levels. -/
def jsonContains : Json → Json → Bool
| Json.arr xs, Json.arr qs => jsonAllContained xs qs
| Json.obj xs, Json.obj qs => jsonAllFields xs qs
| x, q => jsonBeq x q
termination_by x q => sizeOf x + sizeOf q

/-- Every query element of the second list is contained in some element of
the first list. -/
def jsonAllContained (xs : List Json) : List Json → Bool
| [] => true
| q :: qs => jsonAnyContains xs q && jsonAllContained xs qs
termination_by qs => sizeOf xs + sizeOf qs

/-- Some element of the list contains the query value. -/
def jsonAnyContains : List Json → Json → Bool
| [], _ => false
| x :: xs, q => jsonContains x q || jsonAnyContains xs q
termination_by xs q => sizeOf xs + sizeOf q

/-- Every query field of the second list is matched, key for key, by a
containing field of the first list. -/
def jsonAllFields (xs : List (String × Json)) : List (String × Json) → Bool
| [] => true
| q :: qs => jsonAnyField xs q && jsonAllFields xs qs
termination_by qs => sizeOf xs + sizeOf qs

/-- Some field of the list has the query key and a value containing the
query value. -/
def jsonAnyField : List (String × Json) → String × Json → Bool
| [], _ => false
| (k, v) :: xs, (qk, qv) => ((k == qk) && jsonContains v qv) || jsonAnyField xs (qk, qv)
termination_by xs q => sizeOf xs + sizeOf q

end

/-- Top-level jsonb containment, target @> query: as the nested containment,
plus the documented top-level exception that an array contains a primitive
(non-array, non-object) value equal to one of its elements. -/
def jsonbLe (target query : Json) : Bool :=
match target, query with
| Json.arr xs, Json.arr qs => jsonAllContained xs qs
| Json.arr _, Json.obj _ => false
| Json.arr xs, q => jsonAnyContains xs q
| t, q => jsonContains t q

/-- First field with the given key, scanning left to right. -/
def jsonFieldLookup : List (String × Json) → String → Option Json
| [], _ => none
| x :: xs, k => if x.1 == k then some x.2 else jsonFieldLookup xs k

/-- Field access data->k on a JSON value: some value when the target is an
object declaring the key, none (SQL NULL) otherwise. -/
def jsonGet : Json → String → Option Json
| Json.obj fields, k => jsonFieldLookup fields k
| _, _ => none

/-- One row of public.codex as fetched: guid, section discriminator and the
parsed JSON payload of the data column.  The column named section in SQL is
called sectionName here because section is a reserved word in Lean. -/
structure Row where
guid : String
sectionName : String
data : Json

/-- The WHERE clause of the tag search in find_crafting.py:
section = sec AND data->tagField @> the singleton jsonb array holding
tagValue as a string. -/
def rowMatchesTag (r : Row) (sec tagField tagValue : String) : Bool :=
(r.sectionName == sec) &&
(match jsonGet r.data tagField with
 | some t => jsonbLe t (Json.arr [Json.str tagValue])
 | none => false)

/-- The tag-containment fetch of find_crafting.py, over an abstract store
state (the rows of public.codex in their natural order): SELECT the rows
satisfying the section and containment predicate, LIMIT n.  The script
instantiates sec with items, tagField with gameplayTags, tagValue with
Artisanship.Crafting and n with 5 as compile-time literals. -/
def fetchByTagContainment (store : List Row) (sec tagField tagValue : String)
    (n : Nat) : List Row :=
(store.filter (fun r => rowMatchesTag r sec tagField tagValue)).take n

/-- A SQL statement exactly as handed to cursor.execute: the query text and
the tuple of bound parameters. -/
structure SqlQuery where
text : String
params : List String

/-- The per-section COUNT statement of sample_data.py: the section value is
a bound parameter, never part of the text. -/
def countBySectionQuery (sec : String) : SqlQuery :=
{ text := "SELECT COUNT(*) FROM public.codex WHERE section = %s",
  params := [sec] }

/-- The per-table column statement of discover_schema.py (whitespace of the
original triple-quoted text condensed): the schema and table names are bound
parameters, never part of the text. -/
def listColumnsQuery (schemaName tableName : String) : SqlQuery :=
{ text := "SELECT column_name, data_type, is_nullable, column_default FROM information_schema.columns WHERE table_schema = %s AND table_name = %s ORDER BY ordinal_position;",
  params := [schemaName, tableName] }

end Codex

/-- One event on a connection handle during a script run, in program order.
Handles are identified by the port they were opened on: each script opens
at most one handle per port.  A query event is any use of the handle (a
cursor execute or fetch); a closed event is conn.close(). -/
inductive HEvent where
| connected (port : Nat) : HEvent
| query (port : Nat) (name : String) : HEvent
| closed (port : Nat) : HEvent
deriving DecidableEq

/-- Some event of the list uses (queries) the handle of the given port. -/
def usesPort (events : List HEvent) (p : Nat) : Bool :=
events.any
  (fun e => match e with
   | HEvent.query q _ => q == p
   | _ => false)

/-- Some handle is used after its release: a query on a port occurs
strictly after a closed event of the same port. -/
def usedAfterClose : List HEvent → Bool
| [] => false
| HEvent.closed p :: rest => usesPort rest p || usedAfterClose rest
| _ :: rest => usedAfterClose rest

/-- How many times the handle of the given port is released during the
run. -/
def closeCount (events : List HEvent) (p : Nat) : Nat :=
(events.filter (fun e => decide (e = HEvent.closed p))).length

namespace FindCrafting

/-- Outcome of one psycopg2.connect call in find_crafting.py, classified the
way the except clauses of the script classify the raised exception. -/
inductive Attempt where
| ok : Attempt
| opErr : Attempt
| otherErr : Attempt
deriving DecidableEq

/-- Outcome of the query block run on the port 5432 connection, classified
the same way: the try block of find_crafting.py spans the queries too, so a
psycopg2.OperationalError raised mid-query re-enters the port 6543
fallback, while any other exception falls to the trailing generic
handler. -/
inductive QueryOutcome where
| ok : QueryOutcome
| opErr : QueryOutcome
| otherErr : QueryOutcome
deriving DecidableEq

/-- How a failing run of find_crafting.py terminates: the inner handler
prints CONNECTION FAILED and exits after both ports failed, while the outer
generic handler prints the unexpected error and exits without trying the
second port. -/
inductive ExitKind where
| connectionExhausted : ExitKind
| unexpectedError : ExitKind
deriving DecidableEq

/-- Observable trace of one run of find_crafting.py: the ports on which a
connect was attempted, in order; the ports successfully connected, in
order; the handle events (connects, queries, closes) in program order; the
rows the tag search returned; and how the run exited when it failed. -/
structure Trace where
attempts : List Nat
connectedPorts : List Nat
events : List HEvent
records : List Codex.Row
exitWith : Option ExitKind

/-- Embedding of the control flow of find_crafting.py, given the store
contents, the outcome of the connect attempt on each port, and the outcome
of the query block on an established port 5432 connection.  The try block
connects on port 5432 and runs the tag search and the DISTINCT section
query, then closes the connection once.  The first except clause catches
psycopg2.OperationalError - whether raised by the port 5432 connect or by
a query on the established connection - and retries on port 6543, leaving
an established port 5432 connection unclosed; the fallback success branch
runs no query and never closes (the body after the connect is only a
comment).  The nested except catches every exception of the second attempt
and exits with the CONNECTION FAILED message.  The trailing generic except
catches any other exception - a non-operational connect failure or a
non-operational query failure - and exits without closing and without
trying port 6543.  A failing query block is modelled as raising at the
first query; wherever in the block it raises, the close lines are skipped
the same way. -/
def run (store : List Codex.Row) (a1 : Attempt) (q : QueryOutcome)
    (a2 : Attempt) : Trace :=
match a1 with
| Attempt.ok =>
  match q with
  | QueryOutcome.ok =>
    { attempts := [5432], connectedPorts := [5432],
      events := [HEvent.connected 5432,
        HEvent.query 5432 "tagContainmentSearch",
        HEvent.query 5432 "distinctSections", HEvent.closed 5432],
      records :=
        Codex.fetchByTagContainment store "items" "gameplayTags"
          "Artisanship.Crafting" 5,
      exitWith := none }
  | QueryOutcome.opErr =>
    match a2 with
    | Attempt.ok =>
      { attempts := [5432, 6543], connectedPorts := [5432, 6543],
        events := [HEvent.connected 5432,
          HEvent.query 5432 "tagContainmentSearch", HEvent.connected 6543],
        records := [], exitWith := none }
    | _ =>
      { attempts := [5432, 6543], connectedPorts := [5432],
        events := [HEvent.connected 5432,
          HEvent.query 5432 "tagContainmentSearch"],
        records := [], exitWith := some ExitKind.connectionExhausted }
  | QueryOutcome.otherErr =>
    { attempts := [5432], connectedPorts := [5432],
      events := [HEvent.connected 5432,
        HEvent.query 5432 "tagContainmentSearch"],
      records := [], exitWith := some ExitKind.unexpectedError }
| Attempt.opErr =>
  match a2 with
  | Attempt.ok =>
    { attempts := [5432, 6543], connectedPorts := [6543],
      events := [HEvent.connected 6543], records := [], exitWith := none }
  | _ =>
    { attempts := [5432, 6543], connectedPorts := [], events := [],
      records := [], exitWith := some ExitKind.connectionExhausted }
| Attempt.otherErr =>
  { attempts := [5432], connectedPorts := [], events := [], records := [],
    exitWith := some ExitKind.unexpectedError }

end FindCrafting

namespace SampleData

/-- One stored row before payload parsing: the payload is some parsed JSON
tree when the data column holds valid JSON, and none when it is malformed
and the wire-level parse raises. -/
structure RawRow where
guid : String
sectionName : String
payload : Option Codex.Json

/-- The error a fetch can surface: the JSON parse failure of a data
column. -/
inductive FetchError where
| malformedPayload : FetchError
deriving DecidableEq

/-- Parsing one fetched row into a DocumentRecord: a malformed payload
raises, which Except models as an error. -/
def parseRow (r : RawRow) : Except FetchError Codex.Row :=
match r.payload with
| some j => Except.ok { guid := r.guid, sectionName := r.sectionName, data := j }
| none => Except.error FetchError.malformedPayload

/-- Parsing a fetched batch in order: the first malformed payload raises
and aborts the whole batch, exactly as the single try block of the script
propagates the first parse exception; no later row is reached and no
earlier row survives. -/
def parseBatch : List RawRow → Except FetchError (List Codex.Row)
| [] => Except.ok []
| r :: rs =>
  match parseRow r with
  | Except.error e => Except.error e
  | Except.ok row =>
    match parseBatch rs with
    | Except.error e => Except.error e
    | Except.ok rows => Except.ok (row :: rows)

/-- Embedding of the sample fetch of sample_data.py: SELECT guid, section,
data FROM public.codex LIMIT 5, with every fetched row parsed inside the
one try block of the script. -/
def fetchAll (store : List RawRow) : Except FetchError (List Codex.Row) :=
parseBatch (store.take 5)

/-- The record a raw row parses to when its payload is valid; the null
default is never used on rows whose payload is some parsed tree. -/
def forceRow (r : RawRow) : Codex.Row :=
{ guid := r.guid, sectionName := r.sectionName,
  data := r.payload.getD Codex.Json.null }

/-- Embedding of SELECT DISTINCT section FROM public.codex ORDER BY
section: the distinct section values present in the store, in ascending
order. -/
def distinctSections (store : List RawRow) : List String :=
List.insertionSort (· ≤ ·) ((store.map (fun r => r.sectionName)).dedup)

/-- Embedding of the per-section counting loop of sample_data.py: for each
section returned by the DISTINCT query, one COUNT query WHERE section = %s,
yielding the pair (section, count).  The sections iterated over are those
present in the store; no other section is ever counted. -/
def countBySection (store : List RawRow) : List (String × Nat) :=
(distinctSections store).map
  (fun s => (s, (store.filter (fun r => r.sectionName == s)).length))

/-- Observable trace of one script run: the handle events in program order
and whether the run completed without error. -/
structure ScriptTrace where
events : List HEvent
completed : Bool

/-- Embedding of the resource control flow of sample_data.py over the given
store: when the connect fails the script exits before a handle exists;
once connected, the query block (the COUNT, the LIMIT 5 sample, the
DISTINCT sections, and one COUNT per distinct section) runs inside
try/except/finally, and the finally clause closes the cursor and the
connection exactly once, whether the queries succeeded or raised, with
nothing touching the handle afterwards.  A failing query block is modelled
as raising at the first query; wherever in the block it raises, the
finally clause still closes exactly once. -/
def run (store : List RawRow) (connectOk : Bool) (queryFails : Bool) :
    ScriptTrace :=
match connectOk with
| false => { events := [], completed := false }
| true =>
  match queryFails with
  | true =>
    { events := [HEvent.connected 6543, HEvent.query 6543 "countAll",
        HEvent.closed 6543],
      completed := false }
  | false =>
    { events := [HEvent.connected 6543, HEvent.query 6543 "countAll",
        HEvent.query 6543 "fetchSample",
        HEvent.query 6543 "distinctSections"] ++
      (distinctSections store).map
        (fun s => HEvent.query 6543 ("countBySection " ++ s)) ++
      [HEvent.closed 6543],
      completed := true }

end SampleData

namespace DiscoverSchema

/-- Ordering of table descriptors used by ORDER BY table_schema,
table_name: lexicographic on the (schemaName, tableName) pair. -/
def tableLe (a b : String × String) : Prop :=
a.1 < b.1 ∨ (a.1 = b.1 ∧ a.2 ≤ b.2)

instance : DecidableRel tableLe := fun a b => by
unfold tableLe
infer_instance

instance : IsTrans (String × String) tableLe := by
constructor
intro a b c hab hbc
rcases hab with h1 | ⟨h1, h2⟩
· rcases hbc with h3 | ⟨h3, h4⟩
  · exact Or.inl (lt_trans h1 h3)
  · exact Or.inl (h3 ▸ h1)
· rcases hbc with h3 | ⟨h3, h4⟩
  · exact Or.inl (h1 ▸ h3)
  · exact Or.inr ⟨h1.trans h3, le_trans h2 h4⟩

instance : IsTotal (String × String) tableLe := by
constructor
intro a b
rcases lt_trichotomy a.1 b.1 with h | h | h
· exact Or.inl (Or.inl h)
· rcases le_total a.2 b.2 with h2 | h2
  · exact Or.inl (Or.inr ⟨h, h2⟩)
  · exact Or.inr (Or.inr ⟨h.symm, h2⟩)
· exact Or.inr (Or.inl h)

/-- Embedding of the table listing query of discover_schema.py:
SELECT table_schema, table_name FROM information_schema.tables WHERE
table_schema NOT IN (pg_catalog, information_schema) ORDER BY table_schema,
table_name.  The input is the catalog relation (every table the store
exposes through information_schema.tables, as (schema, table) pairs); the
filter excludes exactly the two listed schemas and nothing else. -/
def listTables (catalog : List (String × String)) : List (String × String) :=
List.insertionSort tableLe
  (catalog.filter
    (fun t => !(["pg_catalog", "information_schema"].contains t.1)))

/-- One row of information_schema.columns for one table, as selected by
discover_schema.py: name, data type, the catalog nullability flag (YES or
NO), the declared default expression when present, and the physical
ordinal position. -/
structure CatColumn where
columnName : String
dataType : String
isNullable : String
columnDefault : Option String
ordinalPosition : Nat
deriving DecidableEq

/-- Ordering of catalog columns used by ORDER BY ordinal_position. -/
def columnLe (a b : CatColumn) : Prop :=
a.ordinalPosition ≤ b.ordinalPosition

instance : DecidableRel columnLe := fun a b => by
unfold columnLe
infer_instance

instance : IsTrans CatColumn columnLe :=
⟨fun _ _ _ h1 h2 => Nat.le_trans h1 h2⟩

instance : IsTotal CatColumn columnLe :=
⟨fun a b => Nat.le_total a.ordinalPosition b.ordinalPosition⟩

/-- Embedding of the per-table column query of discover_schema.py: the
columns of the table as the catalog exposes them, ORDER BY
ordinal_position. -/
def listColumns (cols : List CatColumn) : List CatColumn :=
List.insertionSort columnLe cols

/-- Embedding of the default rendering of discover_schema.py, the line
default_str = f" DEFAULT {default}" if default else "".  Python truthiness
makes both None and the empty string falsy, so a declared empty-string
default renders exactly like an absent one. -/
def default_str (d : Option String) : String :=
match d with
| none => ""
| some s => if s == "" then "" else " DEFAULT " ++ s

/-- Observable release behaviour of one run of discover_schema.py over the
given catalog: the script has no try/except and no try/finally, so
cur.close() and conn.close() run only after the table query and every
per-table column query completed; a query failure propagates and the
process dies without ever closing the handle, and on the success path
nothing touches the handle after the close.  A query failure is modelled
as raising at the table query; wherever it raises, the closing lines are
skipped the same way. -/
def run (catalog : List (String × String)) (queryFails : Bool) :
    SampleData.ScriptTrace :=
match queryFails with
| true =>
  { events := [HEvent.connected 6543, HEvent.query 6543 "listTables"],
    completed := false }
| false =>
  { events := [HEvent.connected 6543, HEvent.query 6543 "listTables"] ++
      (listTables catalog).map
        (fun t =>
          HEvent.query 6543 ("listColumns " ++ t.1 ++ "." ++ t.2)) ++
      [HEvent.closed 6543],
    completed := true }

/-- Modelled from the spec: the spec demands filtering out any schema whose
purpose is store-internal bookkeeping rather than user data.  The scripts
target a Supabase store, whose platform-managed bookkeeping schemas beyond
the two standard catalog schemas include at least these. -/
def specStoreInternalSchemas : List String :=
["pg_catalog", "information_schema", "auth", "storage", "realtime",
 "extensions", "vault", "graphql", "graphql_public", "pgsodium"]

end DiscoverSchema

/-- The one matching record of the worked example in the spec: guid abc123
in section items, with gameplayTags [Artisanship.Crafting, Common]. -/
def demoRow : Codex.Row :=
{ guid := "abc123", sectionName := "items",
  data := Codex.Json.obj
    [("gameplayTags",
      Codex.Json.arr
        [Codex.Json.str "Artisanship.Crafting", Codex.Json.str "Common"]),
     ("itemName", Codex.Json.str "Iron Ingot")] }

/-- A store holding 40 rows in section items and none in any other
section. -/
def demoStore40 : List SampleData.RawRow :=
List.replicate 40
  { guid := "g", sectionName := "items", payload := some Codex.Json.null }

/-- A two-column catalog listed out of physical order, with ordinal
positions 2 and 1. -/
def demoCols : List DiscoverSchema.CatColumn :=
[{ columnName := "data", dataType := "jsonb", isNullable := "YES",
   columnDefault := none, ordinalPosition := 2 },
 { columnName := "guid", dataType := "text", isNullable := "NO",
   columnDefault := some "gen_random_uuid()", ordinalPosition := 1 }]

/-- A batch of one raw row with a valid payload. -/
def demoGoodBatch : List SampleData.RawRow :=
[{ guid := "g1", sectionName := "items",
   payload := some (Codex.Json.obj []) }]

/-- A batch of three raw rows whose middle row carries a malformed data
column. -/
def demoBatch : List SampleData.RawRow :=
[{ guid := "g1", sectionName := "items", payload := some (Codex.Json.obj []) },
 { guid := "g2", sectionName := "items", payload := none },
 { guid := "g3", sectionName := "items", payload := some Codex.Json.null }]

namespace Codex

/-- Structural equality with a string on the right holds exactly for that
string node: arrays, objects and other scalars never equal a string. -/
theorem jsonBeq_str_iff (x : Json) (v : String) :
    jsonBeq x (Json.str v) = true ↔ x = Json.str v := by
cases x <;> simp [jsonBeq]

/-- Below the top level, containment of a string query value degenerates to
structural equality: no substring, prefix or case-insensitive matching. -/
theorem jsonContains_str (x : Json) (v : String) :
    jsonContains x (Json.str v) = jsonBeq x (Json.str v) := by
cases x <;> simp [jsonContains]

/-- Some element of the list contains the string query value exactly when
the string node is an element of the list. -/
theorem jsonAnyContains_str_iff (xs : List Json) (v : String) :
    jsonAnyContains xs (Json.str v) = true ↔ Json.str v ∈ xs := by
induction xs with
| nil => simp [jsonAnyContains]
| cons x xs ih =>
  rw [jsonAnyContains]
  rw [Bool.or_eq_true, ih, jsonContains_str, jsonBeq_str_iff, List.mem_cons,
    eq_comm]

/-- The containment predicate of the tag search, target @> the singleton
string array, holds exactly when the target is a JSON array with an element
equal to the string: a non-array target never matches, and matching is
case-sensitive whole-string equality. -/
theorem jsonbLe_singleton_str_iff (t : Json) (v : String) :
    jsonbLe t (Json.arr [Json.str v]) = true ↔
      ∃ xs, t = Json.arr xs ∧ Json.str v ∈ xs := by
cases t with
| arr xs =>
  simp [jsonbLe, jsonAllContained, jsonAnyContains_str_iff]
| null => simp [jsonbLe, jsonContains, jsonBeq]
| bool b => simp [jsonbLe, jsonContains, jsonBeq]
| num n => simp [jsonbLe, jsonContains, jsonBeq]
| str s => simp [jsonbLe, jsonContains, jsonBeq]
| obj fields => simp [jsonbLe, jsonContains, jsonBeq]

/-- The row filter of the tag search holds exactly when the section matches
and the payload field is an array containing the exact tag string. -/
theorem rowMatchesTag_iff (r : Row) (sec tagField tagValue : String) :
    rowMatchesTag r sec tagField tagValue = true ↔
      r.sectionName = sec ∧
      ∃ xs, jsonGet r.data tagField = some (Json.arr xs) ∧
        Json.str tagValue ∈ xs := by
unfold rowMatchesTag
cases h : jsonGet r.data tagField with
| none =>
  simp [h]
| some t =>
  simp [h, jsonbLe_singleton_str_iff]

end Codex

/-- Claim C1, counterexample: the second candidate (port 6543) is reachable
and the first fails with a non-operational exception, yet the script binds
no connection and never attempts the second port - the generic except
clause aborts the sequence before the list is exhausted, and the failure is
not the ConnectionExhausted exit. -/
theorem C1_counterexample :
    (FindCrafting.run [] FindCrafting.Attempt.otherErr
      FindCrafting.QueryOutcome.ok
      FindCrafting.Attempt.ok).connectedPorts = [] ∧
    (FindCrafting.run [] FindCrafting.Attempt.otherErr
      FindCrafting.QueryOutcome.ok
      FindCrafting.Attempt.ok).attempts = [5432] ∧
    (FindCrafting.run [] FindCrafting.Attempt.otherErr
      FindCrafting.QueryOutcome.ok
      FindCrafting.Attempt.ok).exitWith =
      some FindCrafting.ExitKind.unexpectedError :=
⟨rfl, rfl, rfl⟩

/-- Claim C1 as amended: when candidate failures are operational
(connection-level) errors, resolution binds the first reachable candidate
in order and never attempts a later one (the success conjunct is stated
with the query block succeeding, since a mid-query error is a
post-resolution event), and exhaustion of both candidates fails with the
ConnectionExhausted exit; but a non-operational failure of the first
candidate aborts immediately with a generic error, without attempting the
second candidate. -/
theorem C1_resolve_first_reachable (store : List Codex.Row)
    (q : FindCrafting.QueryOutcome) (a2 : FindCrafting.Attempt) :
    ((FindCrafting.run store FindCrafting.Attempt.ok
        FindCrafting.QueryOutcome.ok a2).connectedPorts = [5432] ∧
      (FindCrafting.run store FindCrafting.Attempt.ok
        FindCrafting.QueryOutcome.ok a2).attempts = [5432]) ∧
    ((FindCrafting.run store FindCrafting.Attempt.opErr q
        FindCrafting.Attempt.ok).connectedPorts = [6543] ∧
      (FindCrafting.run store FindCrafting.Attempt.opErr q
        FindCrafting.Attempt.ok).attempts = [5432, 6543]) ∧
    (a2 ≠ FindCrafting.Attempt.ok →
      (FindCrafting.run store FindCrafting.Attempt.opErr q a2).exitWith =
        some FindCrafting.ExitKind.connectionExhausted ∧
      (FindCrafting.run store FindCrafting.Attempt.opErr q a2).attempts =
        [5432, 6543]) ∧
    ((FindCrafting.run store FindCrafting.Attempt.otherErr q a2).exitWith =
        some FindCrafting.ExitKind.unexpectedError ∧
      (FindCrafting.run store FindCrafting.Attempt.otherErr q a2).attempts =
        [5432]) := by
refine ⟨⟨rfl, rfl⟩, ⟨rfl, rfl⟩, ?_, rfl, rfl⟩
intro h
cases a2 with
| ok => exact absurd rfl h
| opErr => exact ⟨rfl, rfl⟩
| otherErr => exact ⟨rfl, rfl⟩

/-- Witness for the amended claim C1, at the empty store with both
candidates failing operationally. -/
theorem C1_resolve_first_reachable_witness :
    FindCrafting.Attempt.opErr ≠ FindCrafting.Attempt.ok ∧
    (FindCrafting.run [] FindCrafting.Attempt.opErr
      FindCrafting.QueryOutcome.ok
      FindCrafting.Attempt.opErr).exitWith =
      some FindCrafting.ExitKind.connectionExhausted :=
⟨by decide,
  ((C1_resolve_first_reachable [] FindCrafting.QueryOutcome.ok
      FindCrafting.Attempt.opErr).2.2.1
    (by decide)).1⟩

/-- Claim C2: the two fetch operations that receive caller-supplied values
at run time - the per-section COUNT of sample_data.py and the per-table
column query of discover_schema.py - send query text that is identical for
any two supplied values, and pass the values only in the bound parameter
tuple. -/
theorem C2_queries_parameterized :
    (∀ s t : String,
      (Codex.countBySectionQuery s).text = (Codex.countBySectionQuery t).text) ∧
    (∀ s : String, (Codex.countBySectionQuery s).params = [s]) ∧
    (∀ a b c d : String,
      (Codex.listColumnsQuery a b).text = (Codex.listColumnsQuery c d).text) ∧
    (∀ a b : String, (Codex.listColumnsQuery a b).params = [a, b]) :=
⟨fun _ _ => rfl, fun _ => rfl, fun _ _ _ _ => rfl, fun _ _ => rfl⟩

/-- Claim C10: on the fallback-success path (port 5432 fails with an
operational error, port 6543 connects), the script executes no query at
all, returns no record, and never closes the second connection before the
program ends - its whole event trace is the one connect. -/
theorem C10_fallback_success_inert (store : List Codex.Row)
    (q : FindCrafting.QueryOutcome) :
    FindCrafting.run store FindCrafting.Attempt.opErr q
        FindCrafting.Attempt.ok =
      { attempts := [5432, 6543], connectedPorts := [6543],
        events := [HEvent.connected 6543], records := [],
        exitWith := none } := by
cases q <;> rfl

/-- A prefix of events none of which is a close does not contribute to
use-after-release: the check reduces to the remaining events. -/
theorem usedAfterClose_append_no_closed (l tail : List HEvent)
    (h : ∀ e ∈ l, ∀ p : Nat, e ≠ HEvent.closed p) :
    usedAfterClose (l ++ tail) = usedAfterClose tail := by
induction l with
| nil => rfl
| cons e rest ih =>
  have hrest : ∀ x ∈ rest, ∀ p : Nat, x ≠ HEvent.closed p :=
    fun x hx p => h x (List.mem_cons_of_mem _ hx) p
  cases e with
  | connected p =>
    rw [List.cons_append]
    exact ih hrest
  | query p n =>
    rw [List.cons_append]
    exact ih hrest
  | closed p => exact absurd rfl (h _ (List.mem_cons_self _ _) p)

/-- A trace that performs connects and queries and then closes, touching
nothing afterwards, never uses a handle after its release. -/
theorem usedAfterClose_queries_then_close (l : List HEvent) (p : Nat)
    (h : ∀ e ∈ l, ∀ c : Nat, e ≠ HEvent.closed c) :
    usedAfterClose (l ++ [HEvent.closed p]) = false := by
rw [usedAfterClose_append_no_closed l _ h]
rfl

/-- Close counting distributes over trace concatenation. -/
theorem closeCount_append (l1 l2 : List HEvent) (p : Nat) :
    closeCount (l1 ++ l2) p = closeCount l1 p + closeCount l2 p := by
simp [closeCount, List.filter_append]

/-- A run of events none of which is a close contributes no close. -/
theorem closeCount_no_closed (l : List HEvent) (p : Nat)
    (h : ∀ e ∈ l, ∀ c : Nat, e ≠ HEvent.closed c) :
    closeCount l p = 0 := by
simp only [closeCount, List.length_eq_zero, List.filter_eq_nil_iff]
intro e he
simpa using h e he p

/-- No event produced by the per-section count loop is a close. -/
theorem sample_count_queries_no_closed (rawStore : List SampleData.RawRow) :
    ∀ e ∈ (SampleData.distinctSections rawStore).map
      (fun s => HEvent.query 6543 ("countBySection " ++ s)),
      ∀ c : Nat, e ≠ HEvent.closed c := by
intro e he c
obtain ⟨s, -, rfl⟩ := List.mem_map.1 he
simp

/-- No event produced by the per-table column loop is a close. -/
theorem schema_column_queries_no_closed (catalog : List (String × String)) :
    ∀ e ∈ (DiscoverSchema.listTables catalog).map
      (fun t => HEvent.query 6543 ("listColumns " ++ t.1 ++ "." ++ t.2)),
      ∀ c : Nat, e ≠ HEvent.closed c := by
intro e he c
obtain ⟨t, -, rfl⟩ := List.mem_map.1 he
simp

/-- Claim C4, counterexample: three execution paths end with a live
connection that is never released - discover_schema.py when a query fails
(no try/finally, so its closing lines are skipped), find_crafting.py on
the fallback-success path (the port 6543 branch never closes), and
find_crafting.py when a query on the established port 5432 connection
raises an operational error (the except re-enters the port 6543 fallback
with the first connection still open and unclosed). -/
theorem C4_counterexample :
    closeCount (DiscoverSchema.run [] true).events 6543 = 0 ∧
    closeCount (FindCrafting.run [] FindCrafting.Attempt.opErr
      FindCrafting.QueryOutcome.ok FindCrafting.Attempt.ok).events 6543
      = 0 ∧
    closeCount (FindCrafting.run [] FindCrafting.Attempt.ok
      FindCrafting.QueryOutcome.opErr FindCrafting.Attempt.ok).events 5432
      = 0 :=
⟨rfl, rfl, rfl⟩

/-- Claim C4 as amended: on every modelled path of every script, no handle
is ever used after its release.  sample_data.py releases the handle exactly
once on every path on which a connection was established, success or query
failure, via its finally clause; discover_schema.py releases exactly once
only on the success path and never on a query-failure path;
find_crafting.py releases the port 5432 handle exactly once on its
all-queries-succeed success path and releases nothing on any other path -
not on the fallback paths (where a mid-query operational error re-enters
the fallback leaving the port 5432 connection unclosed), and not on a
non-operational query failure (which exits via the generic handler without
closing). -/
theorem C4_release_once_per_path (store : List Codex.Row)
    (rawStore : List SampleData.RawRow)
    (catalog : List (String × String)) (a1 : FindCrafting.Attempt)
    (q : FindCrafting.QueryOutcome) (a2 : FindCrafting.Attempt)
    (connectOk queryFails : Bool) :
    usedAfterClose (SampleData.run rawStore connectOk queryFails).events
      = false ∧
    usedAfterClose (DiscoverSchema.run catalog queryFails).events = false ∧
    usedAfterClose (FindCrafting.run store a1 q a2).events = false ∧
    closeCount (SampleData.run rawStore true queryFails).events 6543 = 1 ∧
    closeCount (DiscoverSchema.run catalog false).events 6543 = 1 ∧
    closeCount (DiscoverSchema.run catalog true).events 6543 = 0 ∧
    closeCount (FindCrafting.run store FindCrafting.Attempt.ok
      FindCrafting.QueryOutcome.ok a2).events 5432 = 1 ∧
    closeCount (FindCrafting.run store FindCrafting.Attempt.ok
      FindCrafting.QueryOutcome.opErr a2).events 5432 = 0 ∧
    closeCount (FindCrafting.run store FindCrafting.Attempt.ok
      FindCrafting.QueryOutcome.opErr a2).events 6543 = 0 ∧
    closeCount (FindCrafting.run store FindCrafting.Attempt.ok
      FindCrafting.QueryOutcome.otherErr a2).events 5432 = 0 ∧
    closeCount (FindCrafting.run store FindCrafting.Attempt.opErr q
      a2).events 6543 = 0 := by
have hsample : ∀ e ∈ ([HEvent.connected 6543, HEvent.query 6543 "countAll",
    HEvent.query 6543 "fetchSample",
    HEvent.query 6543 "distinctSections"] ++
    (SampleData.distinctSections rawStore).map
      (fun s => HEvent.query 6543 ("countBySection " ++ s))),
    ∀ c : Nat, e ≠ HEvent.closed c := by
  intro e he c
  rcases List.mem_append.1 he with h1 | h2
  · simp at h1
    rcases h1 with rfl | rfl | rfl | rfl <;> simp
  · exact sample_count_queries_no_closed rawStore e h2 c
have hschema : ∀ e ∈ ([HEvent.connected 6543,
    HEvent.query 6543 "listTables"] ++
    (DiscoverSchema.listTables catalog).map
      (fun t => HEvent.query 6543 ("listColumns " ++ t.1 ++ "." ++ t.2))),
    ∀ c : Nat, e ≠ HEvent.closed c := by
  intro e he c
  rcases List.mem_append.1 he with h1 | h2
  · simp at h1
    rcases h1 with rfl | rfl <;> simp
  · exact schema_column_queries_no_closed catalog e h2 c
refine ⟨?_, ?_, ?_, ?_, ?_, ?_, ?_, ?_, ?_, ?_, ?_⟩
· cases connectOk with
  | false => rfl
  | true =>
    cases queryFails with
    | true => rfl
    | false =>
      exact usedAfterClose_queries_then_close _ 6543 hsample
· cases queryFails with
  | true => rfl
  | false =>
    exact usedAfterClose_queries_then_close _ 6543 hschema
· cases a1 <;> cases q <;> cases a2 <;> rfl
· cases queryFails with
  | true => rfl
  | false =>
    have he : (SampleData.run rawStore true false).events =
        ([HEvent.connected 6543, HEvent.query 6543 "countAll",
          HEvent.query 6543 "fetchSample",
          HEvent.query 6543 "distinctSections"] ++
         (SampleData.distinctSections rawStore).map
           (fun s => HEvent.query 6543 ("countBySection " ++ s))) ++
        [HEvent.closed 6543] := rfl
    rw [he, closeCount_append, closeCount_no_closed _ 6543 hsample]
    rfl
· have he : (DiscoverSchema.run catalog false).events =
      ([HEvent.connected 6543, HEvent.query 6543 "listTables"] ++
       (DiscoverSchema.listTables catalog).map
         (fun t =>
           HEvent.query 6543 ("listColumns " ++ t.1 ++ "." ++ t.2))) ++
      [HEvent.closed 6543] := rfl
  rw [he, closeCount_append, closeCount_no_closed _ 6543 hschema]
  rfl
· rfl
· cases a2 <;> rfl
· cases a2 <;> rfl
· cases a2 <;> rfl
· cases a2 <;> rfl
· cases a2 <;> rfl

/-- Claim C6, counterexample: the rendering of the default clause uses
Python truthiness, under which the empty string is falsy exactly like None,
so a declared empty-string default is rendered identically to an absent
one - absence and empty-string default are not distinct in the output. -/
theorem C6_counterexample :
    DiscoverSchema.default_str (some "") = DiscoverSchema.default_str none ∧
    DiscoverSchema.default_str (some "") = "" :=
⟨rfl, rfl⟩

/-- Claim C6 as amended: listColumns returns columns in strictly increasing
ordinal position whenever the catalog reports distinct ordinal positions,
and the default clause is rendered exactly when the column declares a
nonempty default expression; a declared empty-string default renders as
absent. -/
theorem C6_columns_ordered (cols : List DiscoverSchema.CatColumn)
    (h : (cols.map (fun c => c.ordinalPosition)).Nodup) :
    (DiscoverSchema.listColumns cols).Pairwise
      (fun a b => a.ordinalPosition < b.ordinalPosition) ∧
    (∀ d : Option String,
      DiscoverSchema.default_str d ≠ "" ↔ ∃ s, d = some s ∧ s ≠ "") ∧
    (∀ s : String, s ≠ "" →
      DiscoverSchema.default_str (some s) = " DEFAULT " ++ s) := by
refine ⟨?_, ?_, ?_⟩
· have hsorted : List.Pairwise DiscoverSchema.columnLe
      (DiscoverSchema.listColumns cols) :=
    List.sorted_insertionSort DiscoverSchema.columnLe cols
  have hperm : List.Perm (DiscoverSchema.listColumns cols) cols :=
    List.perm_insertionSort DiscoverSchema.columnLe cols
  have hnodup :
      ((DiscoverSchema.listColumns cols).map
        (fun c => c.ordinalPosition)).Nodup :=
    h.perm ((hperm.map (fun c => c.ordinalPosition)).symm)
  have hne : (DiscoverSchema.listColumns cols).Pairwise
      (fun a b => a.ordinalPosition ≠ b.ordinalPosition) := by
    rwa [List.Nodup, List.pairwise_map] at hnodup
  exact (hsorted.and hne).imp (fun hab => lt_of_le_of_ne hab.1 hab.2)
· intro d
  cases d with
  | none => simp [DiscoverSchema.default_str]
  | some s =>
    by_cases hs : s = ""
    · simp [DiscoverSchema.default_str, hs]
    · have hne2 : " DEFAULT " ++ s ≠ "" := by
        intro hcontra
        have hlen := congrArg String.length hcontra
        rw [String.length_append] at hlen
        simp at hlen
        exact absurd hlen.1 (by decide)
      simp [DiscoverSchema.default_str, hs, hne2]
· intro s hs
  simp [DiscoverSchema.default_str, hs]

/-- Witness for the amended claim C6, at a concrete two-column catalog
listed out of physical order. -/
theorem C6_columns_ordered_witness :
    (demoCols.map (fun c => c.ordinalPosition)).Nodup ∧
    (DiscoverSchema.listColumns demoCols).Pairwise
      (fun a b => a.ordinalPosition < b.ordinalPosition) :=
⟨by decide, (C6_columns_ordered demoCols (by decide)).1⟩

namespace SampleData

/-- When every payload of the batch parses, the batch parse returns every
row, in order. -/
theorem parseBatch_ok (l : List RawRow)
    (h : l.all (fun r => r.payload.isSome) = true) :
    parseBatch l = Except.ok (l.map forceRow) := by
induction l with
| nil => rfl
| cons r rs ih =>
  simp only [List.all_cons, Bool.and_eq_true] at h
  cases hr : r.payload with
  | none => rw [hr] at h; simp at h
  | some j =>
    rw [parseBatch]
    simp [parseRow, hr, ih h.2, forceRow]

/-- When some payload of the batch is malformed, the batch parse aborts
with the payload error and returns no row at all. -/
theorem parseBatch_error (l : List RawRow)
    (h : l.all (fun r => r.payload.isSome) = false) :
    parseBatch l = Except.error FetchError.malformedPayload := by
induction l with
| nil => simp at h
| cons r rs ih =>
  cases hr : r.payload with
  | none =>
    rw [parseBatch]
    simp [parseRow, hr]
  | some j =>
    rw [List.all_cons, hr] at h
    simp only [Option.isSome_some, Bool.true_and] at h
    rw [parseBatch]
    simp [parseRow, hr, ih h]

/-- A section string is returned by the DISTINCT query exactly when some
stored row carries it. -/
theorem mem_distinctSections (store : List RawRow) (s : String) :
    s ∈ distinctSections store ↔ ∃ r ∈ store, r.sectionName = s := by
simp [distinctSections]

end SampleData

/-- Claim C3, counterexample: a batch of three rows whose middle row has a
malformed data column makes the whole fetch abort with the payload error -
the two valid rows of the batch are not returned, so a single malformed row
does abort the whole fetch. -/
theorem C3_counterexample :
    SampleData.fetchAll demoBatch =
      Except.error SampleData.FetchError.malformedPayload :=
rfl

/-- Claim C3 as amended: a row whose data column fails to parse aborts the
entire fetch - the parse error propagates to the batch-level handler, no
row of the batch is returned, and the fetch reports the malformed payload
error; only a batch whose every row parses is returned, and then in
full. -/
theorem C3_malformed_aborts_batch (store : List SampleData.RawRow) :
    (SampleData.fetchAll store =
        Except.error SampleData.FetchError.malformedPayload ↔
      (store.take 5).all (fun r => r.payload.isSome) = false) ∧
    ((store.take 5).all (fun r => r.payload.isSome) = true →
      SampleData.fetchAll store =
        Except.ok ((store.take 5).map SampleData.forceRow)) := by
constructor
· cases hall : (store.take 5).all (fun r => r.payload.isSome) with
  | true =>
    simp [SampleData.fetchAll, SampleData.parseBatch_ok _ hall]
  | false =>
    simp [SampleData.fetchAll, SampleData.parseBatch_error _ hall]
· intro h
  exact SampleData.parseBatch_ok _ h

/-- Witness for the amended claim C3, at a concrete one-row batch with a
valid payload. -/
theorem C3_malformed_aborts_batch_witness :
    (demoGoodBatch.take 5).all (fun r => r.payload.isSome) = true ∧
    SampleData.fetchAll demoGoodBatch =
      Except.ok ((demoGoodBatch.take 5).map SampleData.forceRow) :=
⟨rfl, (C3_malformed_aborts_batch demoGoodBatch).2 rfl⟩

/-- Claim C5: the tag-containment filter matches a record exactly when the
section matches and the payload tag field is a JSON array containing an
element exactly equal to the supplied tag value, by case-sensitive string
equality; against a store whose only record carries the tag
Artisanship.Crafting, the prefix value Crafting returns zero matches as an
empty sequence (the return type carries no error), while the exact value
returns the record. -/
theorem C5_tag_containment_exact :
    (∀ (r : Codex.Row) (sec tagField tagValue : String),
      Codex.rowMatchesTag r sec tagField tagValue = true ↔
        r.sectionName = sec ∧
        ∃ xs, Codex.jsonGet r.data tagField = some (Codex.Json.arr xs) ∧
          Codex.Json.str tagValue ∈ xs) ∧
    Codex.fetchByTagContainment [demoRow] "items" "gameplayTags" "Crafting"
      5 = [] ∧
    Codex.fetchByTagContainment [demoRow] "items" "gameplayTags"
      "Artisanship.Crafting" 5 = [demoRow] := by
refine ⟨Codex.rowMatchesTag_iff, ?_, ?_⟩
· have hget : Codex.jsonGet demoRow.data "gameplayTags" =
      some (Codex.Json.arr
        [Codex.Json.str "Artisanship.Crafting",
         Codex.Json.str "Common"]) := rfl
  cases hb : Codex.rowMatchesTag demoRow "items" "gameplayTags" "Crafting" with
  | true =>
    rw [Codex.rowMatchesTag_iff] at hb
    obtain ⟨-, xs, hx, hmem⟩ := hb
    rw [hget] at hx
    injection hx with hx1
    injection hx1 with hx2
    rw [← hx2] at hmem
    simp at hmem
  | false =>
    simp [Codex.fetchByTagContainment, List.filter_cons, hb]
· have htrue : Codex.rowMatchesTag demoRow "items" "gameplayTags"
      "Artisanship.Crafting" = true := by
    rw [Codex.rowMatchesTag_iff]
    exact ⟨rfl,
      [Codex.Json.str "Artisanship.Crafting", Codex.Json.str "Common"],
      rfl, by simp⟩
  simp [Codex.fetchByTagContainment, List.filter_cons, htrue]

/-- Claim C7, counterexample: against a store with 40 rows in section items
and none in section recipes, the per-section count derives its sections
from the DISTINCT query, so the result is the single pair (items, 40) - no
requested-but-empty section such as recipes is mapped to 0, it is simply
absent. -/
theorem C7_counterexample :
    SampleData.countBySection demoStore40 = [("items", 40)] ∧
    ¬ (("recipes", (0 : Nat)) ∈ SampleData.countBySection demoStore40) := by
have h : SampleData.countBySection demoStore40 = [("items", 40)] := by decide
refine ⟨h, ?_⟩
rw [h]
decide

/-- Claim C7 as amended: the per-section count derives its sections from
the store via the DISTINCT query rather than from a caller-supplied
request; it returns exactly one pair per section present, in ascending
section order, mapping each to its exact and necessarily positive row
count; a section with zero rows never appears in the mapping. -/
theorem C7_counts_present_sections (store : List SampleData.RawRow) :
    ((SampleData.countBySection store).map Prod.fst =
      SampleData.distinctSections store) ∧
    (∀ p ∈ SampleData.countBySection store,
      p.2 = (store.filter (fun r => r.sectionName == p.1)).length ∧
      0 < p.2) ∧
    (∀ s : String, (∀ r ∈ store, r.sectionName ≠ s) →
      ∀ n : Nat, ¬ ((s, n) ∈ SampleData.countBySection store)) := by
refine ⟨?_, ?_, ?_⟩
· simp only [SampleData.countBySection, List.map_map]
  exact List.map_id _
· intro p hp
  simp only [SampleData.countBySection, List.mem_map] at hp
  obtain ⟨s, hs, rfl⟩ := hp
  refine ⟨rfl, ?_⟩
  rw [SampleData.mem_distinctSections] at hs
  obtain ⟨r, hr, hrs⟩ := hs
  have hmem : r ∈ store.filter (fun x => x.sectionName == s) := by
    rw [List.mem_filter]
    exact ⟨hr, by simp [hrs]⟩
  exact List.length_pos_of_mem hmem
· intro s habsent n hmem
  simp only [SampleData.countBySection, List.mem_map] at hmem
  obtain ⟨t, ht, hts⟩ := hmem
  have hts1 : t = s := congrArg Prod.fst hts
  rw [SampleData.mem_distinctSections] at ht
  obtain ⟨r, hr, hrt⟩ := ht
  exact habsent r hr (hrt.trans hts1)

/-- Witness for the amended claim C7, at the store with 40 rows in section
items. -/
theorem C7_counts_present_sections_witness :
    (("items", (40 : Nat)) ∈ SampleData.countBySection demoStore40) ∧
    (("items", (40 : Nat)).2 =
      (demoStore40.filter
        (fun r => r.sectionName == ("items", (40 : Nat)).1)).length ∧
      0 < ("items", (40 : Nat)).2) :=
⟨by decide,
  (C7_counts_present_sections demoStore40).2.1 ("items", 40) (by decide)⟩

/-- Claim C9, counterexample: the table listing filters out only the two
standard catalog schemas, so a table of the auth schema - store-internal
bookkeeping of the Supabase platform the scripts target, not user data -
passes the filter and is returned. -/
theorem C9_counterexample :
    DiscoverSchema.listTables [("auth", "users")] = [("auth", "users")] ∧
    "auth" ∈ DiscoverSchema.specStoreInternalSchemas :=
⟨by decide, by decide⟩

/-- Claim C9 as amended: listTables excludes exactly the schemas pg_catalog
and information_schema - a table appears in the result exactly when the
catalog lists it under any other schema, store-internal or not - and the
result is sorted ascending by (schemaName, tableName), so any two calls on
an unchanged catalog return identical, identically ordered sequences. -/
theorem C9_listTables_filter_order (catalog : List (String × String)) :
    List.Pairwise DiscoverSchema.tableLe
      (DiscoverSchema.listTables catalog) ∧
    (∀ t : String × String,
      t ∈ DiscoverSchema.listTables catalog ↔
        t ∈ catalog ∧ t.1 ≠ "pg_catalog" ∧ t.1 ≠ "information_schema") := by
constructor
· exact List.sorted_insertionSort DiscoverSchema.tableLe _
· intro t
  simp [DiscoverSchema.listTables, List.mem_filter]
